import Mathlib

/-!
Verification of the `KuzzleRoom` real-time subscription component
(constructor, `count`, `renew`, `unsubscribe`, `dequeue`, and the
notification handler installed by `renew`).

The JavaScript source is embedded shallowly:
- instance fields become a `Room` record; the transport's registered
  handlers become a `World` record threaded explicitly;
- network and callback activity is recorded as a trace of `Effect`s;
- asynchronous response handlers (the subscribe callback, the count
  callback, the per-room notification handler) become explicit functions
  applied to the state at response-delivery time;
- a thrown JS exception becomes an `Except.error` carrying the error,
  the state at the moment of the throw (JS exceptions do not roll back
  mutations), and the effects already emitted;
- `dequeue`'s `while` loop, which can genuinely diverge, takes explicit
  fuel; running out of fuel yields the distinguished `RoomError.diverged`.

Headers (`kuzzle.addHeaders`) and `metadata` are carried by requests but
never branched on by this component; the effect trace records the
operative request fields (filters body, requestId, roomId) only.
`kuzzle.callbackRequired` is a collaborator assertion that a callback was
supplied; callbacks are always present in the model (`CB`), so it is a
no-op here.
-/

namespace KuzzleRoom

/-- JSON-like values carried in notification payloads and filters. -/
inductive JVal
  | null
  | num (n : Int)
  | str (s : String)
  | obj (fields : List (String × JVal))

/-- JavaScript property read `v[k]`: `none` when absent or when `v` is not
an object. -/
def getField : JVal → String → Option JVal
  | .obj fs, k => fs.lookup k
  | _, _ => none

def setFields : List (String × JVal) → String → JVal → List (String × JVal)
  | [], k, v => [(k, v)]
  | (k', v') :: rest, k, v =>
      if k' = k then (k, v) :: rest else (k', v') :: setFields rest k v

/-- JavaScript property write `v[k] = x` (overwrites in place, else
appends); a no-op on non-objects. -/
def setField : JVal → String → JVal → JVal
  | .obj fs, k, v => .obj (setFields fs k v)
  | j, _, _ => j

/-- JavaScript truthiness of a payload value (`undefined`, i.e. an absent
field, is handled at use sites via `Option`). -/
def truthy : JVal → Bool
  | .null => false
  | .num n => n != 0
  | .str s => s != ""
  | .obj _ => true

/-- JavaScript strict equality `v === 's'` of a (possibly absent) payload
value against a string literal. -/
def isStr (v : Option JVal) (lit : String) : Bool :=
  match v with
  | some (JVal.str t) => t = lit
  | _ => false

/-- Callbacks. `user` is a caller-supplied callback (identified by an id);
`lifecycle` is the anonymous closure passed to `self.count` inside the
notification handler (source lines 255-272), capturing `data.result`, the
`listening` gate, the global event name and the subscription callback. -/
inductive CB
  | user (id : Nat)
  | lifecycle (payload : JVal) (listening : Bool) (globalEvent : String) (orig : CB)

/-- An argument stored in a queued call's `args` array. -/
inductive Arg
  | filt (f : JVal)
  | cbArg (c : CB)

/-- A queued call `{action: <string>, args: [...]}` as pushed by
`count`/`renew`/`unsubscribe` while `subscribing` is true. The action is a
plain string, exactly as in the source: `dequeue` later looks the method
up by this name. -/
structure Entry where
  action : String
  args : List Arg

/-- Observable activity: requests sent through `kuzzle.query`, transport
(de)registrations, and invocations of caller callbacks and global
listeners. Requests that register a response handler carry it. -/
inductive Effect
  | queryOn (collection : String) (filters : JVal) (handler : CB)
  | queryOff (collection : String) (requestId : Option String)
  | queryCount (roomId : Option String) (handler : CB)
  | socketOn (channel : Option String)
  | socketOff (channel : String)
  | cbCall (cb : Nat) (err : Option JVal) (data : Option JVal)
  | listenerCall (listener : Nat) (subscriptionId : Option String) (data : JVal)

/-- The process-wide `kuzzle.eventListeners` lists read by the
notification handler (only the `subscribed` and `unsubscribed` lists are
ever accessed by this component); listeners are identified by ids. -/
structure Globals where
  subscribed : List Nat
  unsubscribed : List Nat
deriving DecidableEq, Repr

/-- `kuzzle.eventListeners[ev]` for the two events this component uses. -/
def eventListeners (g : Globals) (ev : String) : List Nat :=
  if ev = "subscribed" then g.subscribed
  else if ev = "unsubscribed" then g.unsubscribed
  else []

/-- Instance state of a `KuzzleRoom` (the mutable fields set up by the
constructor's `Object.defineProperties`). -/
structure Room where
  queue : List Entry
  subscribing : Bool
  collection : String
  filters : Option JVal
  listeningToConnections : Bool
  listeningToDisconnections : Bool
  roomId : Option String
  subscriptionId : Option String
  subscriptionTimestamp : Option Nat
  subscribeToSelf : Bool

/-- The transport's registered handlers: `kuzzle.socket.on(key, handler)`
appends a binding, `kuzzle.socket.off(key)` removes every binding under
that key. The key is `self.roomId` at registration time, hence possibly
`none` (null). Each binding keeps the handler's captured subscription
callback. -/
structure World where
  bindings : List (Option String × CB)

/-- Modelled from the spec: the Query Gateway (`kuzzle.query`, a
collaborator not under src/) delivers to the subscribe callback the
backend-assigned `roomId`/`roomName` fields of the response result
(spec §6; confirmed by the §8 end-to-end scenario, where after response
`{result:{roomId:'r1',roomName:'s1'}}` the handler is bound on channel
`r1`). -/
structure SubResp where
  roomId : String
  roomName : String
deriving DecidableEq, Repr

/-- Thrown JS exceptions. `typeError a` is the TypeError raised when
`dequeue` dispatches `this[a]` and no such method exists (or when a
payload lacks a field the handler dereferences); `subscribeError` is the
`throw new Error('Error during Kuzzle subscription: ...')` in `renew`'s
response handler; `diverged` marks fuel exhaustion of `dequeue`'s loop. -/
inductive RoomError
  | typeError (name : String)
  | subscribeError (e : JVal)
  | diverged

/-- Constructor options (absent keys are `none`). -/
structure Options where
  listeningToConnections : Option Bool
  listeningToDisconnections : Option Bool
  subscribeToSelf : Option Bool
deriving DecidableEq, Repr

/-- The `KuzzleRoom` constructor: `(options && options.key) ? options.key
: false` for the three flags; `filters`, `roomId`, `subscriptionId`,
`subscriptionTimestamp` start null; the queue starts empty and
`subscribing` false. -/
def mkRoom (collection : String) (options : Option Options) : Room where
  queue := []
  subscribing := false
  collection := collection
  filters := none
  listeningToConnections := (options.bind (·.listeningToConnections)).getD false
  listeningToDisconnections := (options.bind (·.listeningToDisconnections)).getD false
  roomId := none
  subscriptionId := none
  subscriptionTimestamp := none
  subscribeToSelf := (options.bind (·.subscribeToSelf)).getD false

/-- `KuzzleRoom.prototype.count`: queued (with no network action) while
`subscribing`; otherwise sends the count query `{body:{roomId}}`,
registering the wrapper around `cb` as response handler. State is not
otherwise altered. -/
def count (s : Room) (c : CB) : Room × List Effect :=
  if s.subscribing then
    ({ s with queue := s.queue ++ [⟨"count", [Arg.cbArg c]⟩] }, [])
  else
    (s, [Effect.queryCount s.roomId c])

/-- `KuzzleRoom.prototype.unsubscribe`: queued while `subscribing` — note
the source pushes the entry under the name `'unsubscribed'`, not
`'unsubscribe'`. Otherwise, `if (this.roomId)` (non-null backend id): send
the fire-and-forget off-query `{requestId: subscriptionId}` (no response
handler is registered, so a backend failure can have no effect on the
instance), detach the transport handler for the old room id, and null out
`roomId`/`subscriptionId`/`subscriptionTimestamp`. -/
def unsubscribe (s : Room) (w : World) : Room × World × List Effect :=
  if s.subscribing then
    ({ s with queue := s.queue ++ [⟨"unsubscribed", []⟩] }, w, [])
  else
    match s.roomId with
    | some r =>
        ({ s with roomId := none, subscriptionId := none, subscriptionTimestamp := none },
         { w with bindings := w.bindings.filter (fun b => b.1 ≠ some r) },
         [Effect.queryOff s.collection s.subscriptionId, Effect.socketOff r])
    | none => (s, w, [])

/-- `KuzzleRoom.prototype.renew`, up to the point the subscribe request is
sent (the asynchronous response handler is `renewResponse` below): queued
while `subscribing`; otherwise stores the new filters, synchronously
unsubscribes any prior subscription, sets `subscribing := true` and sends
the subscribe query `{body: filters}` with `cb` captured by its response
handler. -/
def renew (s : Room) (w : World) (filters : JVal) (c : CB) : Room × World × List Effect :=
  if s.subscribing then
    ({ s with queue := s.queue ++ [⟨"renew", [Arg.filt filters, Arg.cbArg c]⟩] }, w, [])
  else
    let s1 := { s with filters := some filters }
    let (s2, w2, e2) := unsubscribe s1 w
    ({ s2 with subscribing := true }, w2,
     e2 ++ [Effect.queryOn s.collection filters c])

/-- Result of running a (possibly-throwing) operation: on a throw, the
error together with the state, world and effects at the moment of the
throw (JS exceptions do not undo prior mutations or un-send requests). -/
abbrev OpResult := Except (RoomError × Room × World × List Effect) (Room × World × List Effect)

/-- `this[element.action].apply(this, element.args)` inside `dequeue`:
method lookup by the queued action string. Only `renew`, `count` and
`unsubscribe` are ever reachable through entries this component enqueues;
any other name (in particular the `'unsubscribed'` pushed by
`unsubscribe`) has no method and raises a TypeError. A name whose stored
args do not fit its method would make the collaborator assertion
`callbackRequired` throw; no reachable entry has that shape, and it is
mapped to the same TypeError here. -/
def dispatch (s : Room) (w : World) (e : Entry) : OpResult :=
  match e.action, e.args with
  | "renew", [Arg.filt f, Arg.cbArg c] => .ok (renew s w f c)
  | "count", [Arg.cbArg c] =>
      let (s', eff) := count s c
      .ok (s', w, eff)
  | "unsubscribe", _ => .ok (unsubscribe s w)
  | a, _ => .error (.typeError a, s, w, [])

/-- `KuzzleRoom.prototype.dequeue`: `while (queue.length > 0) { element =
queue.shift(); this[element.action].apply(this, element.args); }`. A
replayed call can push new entries (e.g. a replayed `renew` flips
`subscribing` back on, re-queuing everything after it), so the loop need
not terminate; fuel bounds the number of iterations. -/
def dequeue : Nat → Room → World → OpResult
  | 0, s, w => .error (.diverged, s, w, [])
  | fuel + 1, s, w =>
    match s.queue with
    | [] => .ok (s, w, [])
    | e :: rest =>
      match dispatch { s with queue := rest } w e with
      | .error r => .error r
      | .ok (s', w', eff) =>
        match dequeue fuel s' w' with
        | .error (err, s'', w'', eff') => .error (err, s'', w'', eff ++ eff')
        | .ok (s'', w'', eff') => .ok (s'', w'', eff ++ eff')

/-- The subscribe-response handler registered by `renew` (source lines
225-278). On error it throws (`subscribeError`) — before any field of the
instance is touched, so `subscribing` is left as it was. On success it
stores `roomId`/`subscriptionId` (= `roomName`), stamps
`subscriptionTimestamp` (`Date.now()` is the `now` argument), clears
`subscribing`, drains the queue, and only then registers the notification
handler under `self.roomId` as read after the drain. -/
def renewResponse (fuel : Nat) (s : Room) (w : World) (c : CB) (now : Nat)
    (resp : Except JVal SubResp) : OpResult :=
  match resp with
  | .error e => .error (.subscribeError e, s, w, [])
  | .ok r =>
    let s1 := { s with roomId := some r.roomId, subscriptionId := some r.roomName,
                       subscriptionTimestamp := some now, subscribing := false }
    match dequeue fuel s1 w with
    | .error res => .error res
    | .ok (s2, w2, eff) =>
        .ok (s2, { w2 with bindings := w2.bindings ++ [(s2.roomId, c)] },
             eff ++ [Effect.socketOn s2.roomId])

/-- Invocation of a callback with `(err, res)`. A `user` callback is an
observable effect. A `lifecycle` callback runs source lines 255-272: on a
count error, forward it to the subscription callback only when the gate
flag (`listening`) is true and stop; on success, attach the count to the
captured `data.result`, deliver it to the subscription callback when the
gate flag is true, then invoke every listener of the relevant global list
with `(self.subscriptionId, data.result)` in list order. -/
def runCB (s : Room) (g : Globals) : CB → Option JVal → Option JVal → List Effect
  | .user id, err, res => [Effect.cbCall id err res]
  | .lifecycle _payload listening _globalEvent orig, some e, _ =>
      if listening then runCB s g orig (some e) none else []
  | .lifecycle payload listening globalEvent orig, none, res =>
      let augmented := setField payload "count" (res.getD JVal.null)
      (if listening then runCB s g orig none (some augmented) else [])
        ++ (eventListeners g globalEvent).map
            (fun lid => Effect.listenerCall lid s.subscriptionId augmented)

/-- The count query's internal response wrapper (source lines 191-197):
`if (err) return cb(err); cb(null, res)`. -/
def countResponse (s : Room) (g : Globals) (c : CB) (resp : Except JVal JVal) :
    List Effect :=
  match resp with
  | .error e => runCB s g c (some e) none
  | .ok res => runCB s g c none (some res)

/-- The notification handler bound by `renew`'s success path (source
lines 236-277), closed over the subscription callback `c`. An inbound
message with a truthy `error` field goes straight to `c`. Otherwise
`data.result.action` is inspected: for `'on'`/`'off'`, pick the global
event name and gate flag, and only when the gate is true or the global
list is non-empty call `self.count` with the lifecycle closure (which may
itself be queued if `subscribing` is true again); any other action is an
ordinary notification forwarded to `c` as `(null, data.result)`. Reading
`.action` off an absent `result` raises a TypeError, as in JS. -/
def notifHandler (s : Room) (g : Globals) (c : CB) (msg : JVal) :
    Except (RoomError × Room × List Effect) (Room × List Effect) :=
  if (getField msg "error").any truthy then
    .ok (s, runCB s g c (getField msg "error") none)
  else
    match getField msg "result" with
    | none => .error (.typeError "action", s, [])
    | some result =>
      let action := getField result "action"
      if isStr action "on" || isStr action "off" then
        let globalEvent := if isStr action "on" then "subscribed" else "unsubscribed"
        let listening := if isStr action "on" then s.listeningToConnections
                         else s.listeningToDisconnections
        if listening || (eventListeners g globalEvent).length > 0 then
          let (s', eff) := count s (CB.lifecycle result listening globalEvent c)
          .ok (s', eff)
        else
          .ok (s, [])
      else
        .ok (s, runCB s g c none (some result))

/-- Deliver an inbound transport message on a channel: every handler
bound under that exact channel key runs, in registration order. -/
def deliver (s : Room) (w : World) (g : Globals) (channel : String) (msg : JVal) :
    Except (RoomError × Room × List Effect) (Room × List Effect) :=
  ((w.bindings.filter (fun b => b.1 = some channel)).map (·.2)).foldlM
    (fun acc c =>
      match notifHandler acc.1 g c msg with
      | .error (err, s', eff) => .error (err, s', acc.2 ++ eff)
      | .ok (s', eff) => .ok (s', acc.2 ++ eff))
    (s, [])

/-! ## Shared fixtures -/

/-- No global listeners registered. -/
def g0 : Globals := ⟨[], []⟩

/-- Empty transport (no handlers bound). -/
def w0 : World := ⟨[]⟩

/-- An instance with an active subscription on room `r0` (reachable state
after a successful `renew` with filters `f0`). -/
def activeRoom : Room :=
  { mkRoom "col" none with
      filters := some (JVal.str "f0"),
      roomId := some "r0",
      subscriptionId := some "s0",
      subscriptionTimestamp := some 5 }

/-- The transport world matching `activeRoom`: one handler bound on its
room id. -/
def activeWorld : World := ⟨[(some "r0", CB.user 9)]⟩

/-- An instance whose `renew`'s subscribe request is in flight
(reachable state right after `renew (JVal.str "f1")` on a fresh room). -/
def midRenewRoom : Room :=
  { mkRoom "col" none with subscribing := true, filters := some (JVal.str "f1") }

/-! ## Claims -/

/-- **C10.** When the constructor is called without an options argument,
or with options lacking the three flag keys, `listeningToConnections`,
`listeningToDisconnections` and `subscribeToSelf` are initialized to
false, `filters`/`roomId`/`subscriptionId`/`subscriptionTimestamp` to
null, the queue is empty and `subscribing` is false. -/
theorem claim10_constructor_defaults (coll : String) (opts : Option Options)
    (h1 : opts.bind (·.listeningToConnections) = none)
    (h2 : opts.bind (·.listeningToDisconnections) = none)
    (h3 : opts.bind (·.subscribeToSelf) = none) :
    (mkRoom coll opts).listeningToConnections = false ∧
    (mkRoom coll opts).listeningToDisconnections = false ∧
    (mkRoom coll opts).subscribeToSelf = false ∧
    (mkRoom coll opts).filters = none ∧
    (mkRoom coll opts).roomId = none ∧
    (mkRoom coll opts).subscriptionId = none ∧
    (mkRoom coll opts).subscriptionTimestamp = none ∧
    (mkRoom coll opts).queue = [] ∧
    (mkRoom coll opts).subscribing = false := by
  simp [mkRoom, h1, h2, h3]

/-- Witness for C10 at the concrete input `mkRoom "c" none`. -/
theorem claim10_constructor_defaults_witness :
    (mkRoom "c" none).listeningToConnections = false ∧
    (mkRoom "c" none).listeningToDisconnections = false ∧
    (mkRoom "c" none).subscribeToSelf = false ∧
    (mkRoom "c" none).filters = none ∧
    (mkRoom "c" none).roomId = none ∧
    (mkRoom "c" none).subscriptionId = none ∧
    (mkRoom "c" none).subscriptionTimestamp = none ∧
    (mkRoom "c" none).queue = [] ∧
    (mkRoom "c" none).subscribing = false :=
  claim10_constructor_defaults "c" none rfl rfl rfl

/-- **C1 (code bug).** The claim says every call queued while
`subscribing` is replayed by invoking the same public operation it was
invoked as. The code violates this for `unsubscribe`: the entry is pushed
under the action name `'unsubscribed'` (source line 292), which names no
method, so `dequeue`'s dynamic dispatch `this[element.action]` raises a
TypeError instead of replaying `unsubscribe`. Evaluated here at the
failing input: `unsubscribe` called while `subscribing` is true queues
the misnamed entry with no network action, and the subsequent `dequeue`
(run once `subscribing` is cleared) fails with the TypeError, the entry
never replayed. -/
theorem claim1_unsubscribe_replay_typeerror :
    (unsubscribe { mkRoom "col" none with subscribing := true } w0).1.queue
        = [⟨"unsubscribed", []⟩] ∧
    (unsubscribe { mkRoom "col" none with subscribing := true } w0).2.2 = [] ∧
    dequeue 2 { mkRoom "col" none with queue := [⟨"unsubscribed", []⟩] } w0
        = .error (.typeError "unsubscribed", mkRoom "col" none, w0, []) :=
  ⟨rfl, rfl, rfl⟩

/-- **C2 (code bug).** The claim says the `subscribing` flag is cleared on
the subscribe-failure path as well. In the code the response handler's
first statement on error is `throw new Error(...)` (source lines
226-228), executed before any assignment, so the instance that entered
the handler with `subscribing = true` keeps `subscribing = true` forever:
evaluated at the failing input, the handler throws `subscribeError` with
the state unchanged (and still `Subscribing`), so the queued operations
never run. -/
theorem claim2_subscribe_error_keeps_subscribing :
    renewResponse 1 midRenewRoom w0 (CB.user 0) 42 (.error (JVal.str "boom"))
      = .error (.subscribeError (JVal.str "boom"), midRenewRoom, w0, []) ∧
    midRenewRoom.subscribing = true :=
  ⟨rfl, rfl⟩

/-- **C3 counterexample.** The claim says that when the subscribe request
of a `renew` errors, the instance's observable state (filters, roomId,
subscriptionId, subscriptionTimestamp, transport binding) is the same as
before that `renew` call. False at this input: starting from an active
subscription on `r0` with filters `f0`, `renew` with filters `f1` already
replaced the filters, tore the old subscription down and detached its
binding before sending the request, and the error handler throws without
restoring anything. -/
theorem claim3_counterexample :
    renewResponse 1 (renew activeRoom activeWorld (JVal.str "f1") (CB.user 0)).1
        (renew activeRoom activeWorld (JVal.str "f1") (CB.user 0)).2.1
        (CB.user 0) 42 (.error (JVal.str "boom"))
      = .error (.subscribeError (JVal.str "boom"),
          (renew activeRoom activeWorld (JVal.str "f1") (CB.user 0)).1,
          (renew activeRoom activeWorld (JVal.str "f1") (CB.user 0)).2.1, []) ∧
    (renew activeRoom activeWorld (JVal.str "f1") (CB.user 0)).1.filters
        ≠ activeRoom.filters ∧
    (renew activeRoom activeWorld (JVal.str "f1") (CB.user 0)).1.roomId
        ≠ activeRoom.roomId ∧
    (renew activeRoom activeWorld (JVal.str "f1") (CB.user 0)).2.1.bindings
        ≠ activeWorld.bindings := by
  refine ⟨rfl, ?_, ?_, ?_⟩ <;> simp [renew, unsubscribe, activeRoom, activeWorld, mkRoom]

/-- **C3 (amended).** If the subscribe request issued by a proceeding
`renew` completes with an error, the renew fails as an unrecoverable
thrown error and the response handler commits nothing — state, world and
emitted effects at the throw are exactly those at request-send time. The
pre-request mutations persist, however: filters already hold the new
value, `subscribing` is (and remains) true, and any prior subscription
identity was already cleared. -/
theorem claim3_amended (s : Room) (w : World) (f : JVal) (c : CB) (now : Nat)
    (e : JVal) (fuel : Nat) (h : s.subscribing = false) :
    renewResponse fuel (renew s w f c).1 (renew s w f c).2.1 c now (.error e)
      = .error (.subscribeError e, (renew s w f c).1, (renew s w f c).2.1, []) ∧
    (renew s w f c).1.filters = some f ∧
    (renew s w f c).1.subscribing = true ∧
    (renew s w f c).1.roomId = none := by
  obtain ⟨qu, sub, col, fil, ltc, ltd, rid, sid, ts, sts⟩ := s
  simp only at h
  subst h
  refine ⟨rfl, ?_, ?_, ?_⟩ <;> cases rid <;> rfl

/-- Witness for C3's amended theorem at a concrete active instance. -/
theorem claim3_amended_witness :
    activeRoom.subscribing = false ∧
    (renewResponse 3 (renew activeRoom activeWorld (JVal.str "f1") (CB.user 0)).1
        (renew activeRoom activeWorld (JVal.str "f1") (CB.user 0)).2.1
        (CB.user 0) 42 (.error (JVal.str "boom"))
      = .error (.subscribeError (JVal.str "boom"),
          (renew activeRoom activeWorld (JVal.str "f1") (CB.user 0)).1,
          (renew activeRoom activeWorld (JVal.str "f1") (CB.user 0)).2.1, []) ∧
    (renew activeRoom activeWorld (JVal.str "f1") (CB.user 0)).1.filters
        = some (JVal.str "f1") ∧
    (renew activeRoom activeWorld (JVal.str "f1") (CB.user 0)).1.subscribing = true ∧
    (renew activeRoom activeWorld (JVal.str "f1") (CB.user 0)).1.roomId = none) :=
  ⟨rfl, claim3_amended activeRoom activeWorld (JVal.str "f1") (CB.user 0) 42
      (JVal.str "boom") 3 rfl⟩

/-- Draining a queue whose entries are all `count` calls (the only
reachable entry shape besides `renew` and the misnamed `unsubscribed`)
with `subscribing` false replays each entry as a count query and empties
the queue, leaving every other instance field and the transport
untouched. -/
theorem dequeue_count_entries : ∀ (q : List Entry) (s : Room) (w : World),
    s.queue = q → s.subscribing = false →
    (∀ e ∈ q, e.action = "count" ∧ ∃ cc, e.args = [Arg.cbArg cc]) →
    ∃ eff, dequeue (q.length + 1) s w = .ok ({ s with queue := [] }, w, eff) := by
  intro q
  induction q with
  | nil =>
    intro s w hq hs _
    obtain ⟨qu, sub, col, fil, ltc, ltd, rid, sid, ts, sts⟩ := s
    simp only at hq hs
    subst hq hs
    exact ⟨[], rfl⟩
  | cons e rest ih =>
    intro s w hq hs hall
    obtain ⟨hact, cc, hargs⟩ := hall e (List.mem_cons_self e rest)
    obtain ⟨ea, eargs⟩ := e
    simp only at hact hargs
    subst hact hargs
    obtain ⟨qu, sub, col, fil, ltc, ltd, rid, sid, ts, sts⟩ := s
    simp only at hq hs
    subst hq hs
    obtain ⟨eff', heff'⟩ :=
      ih ⟨rest, false, col, fil, ltc, ltd, rid, sid, ts, sts⟩ w rfl rfl
        (fun e' he' => hall e' (List.mem_cons_of_mem _ he'))
    refine ⟨Effect.queryCount rid cc :: eff', ?_⟩
    have step : dequeue ((⟨"count", [Arg.cbArg cc]⟩ :: rest : List Entry).length + 1)
        (⟨⟨"count", [Arg.cbArg cc]⟩ :: rest, false, col, fil, ltc, ltd, rid, sid, ts, sts⟩ : Room) w
        = (match dequeue (rest.length + 1)
              (⟨rest, false, col, fil, ltc, ltd, rid, sid, ts, sts⟩ : Room) w with
           | .error (err, s'', w'', eff'') =>
               .error (err, s'', w'', Effect.queryCount rid cc :: eff'')
           | .ok (s'', w'', eff'') =>
               .ok (s'', w'', Effect.queryCount rid cc :: eff'')) := rfl
    rw [step, heff']

/-- **C4.** After any `renew` call that proceeds and whose subscribe
request completes successfully, `roomId`, `subscriptionId` and
`subscriptionTimestamp` are all non-null and `subscribing` is false. The
queue hypothesis restricts the drained entries to `count` calls: a
queued `renew` (intentionally, per the spec's own queueing description)
would immediately re-enter the Subscribing state while its own request
is in flight. -/
theorem claim4_successful_renew (s : Room) (w : World) (f : JVal) (c : CB)
    (now : Nat) (r : SubResp)
    (hs : s.subscribing = false)
    (hq : ∀ e ∈ s.queue, e.action = "count" ∧ ∃ cc, e.args = [Arg.cbArg cc]) :
    ∃ s2 w2 eff,
      renewResponse (s.queue.length + 1) (renew s w f c).1 (renew s w f c).2.1
          c now (.ok r)
        = .ok (s2, w2, eff) ∧
      s2.roomId = some r.roomId ∧
      s2.subscriptionId = some r.roomName ∧
      s2.subscriptionTimestamp = some now ∧
      s2.subscribing = false := by
  obtain ⟨qu, sub, col, fil, ltc, ltd, rid, sid, ts, sts⟩ := s
  simp only at hs hq
  subst hs
  cases rid with
  | none =>
    obtain ⟨eff, heff⟩ := dequeue_count_entries qu
      ⟨qu, false, col, some f, ltc, ltd, some r.roomId, some r.roomName, some now, sts⟩
      w rfl rfl hq
    refine ⟨⟨[], false, col, some f, ltc, ltd, some r.roomId, some r.roomName, some now, sts⟩,
      ⟨w.bindings ++ [(some r.roomId, c)]⟩,
      eff ++ [Effect.socketOn (some r.roomId)], ?_, rfl, rfl, rfl, rfl⟩
    have step : renewResponse (qu.length + 1)
        (renew (⟨qu, false, col, fil, ltc, ltd, none, sid, ts, sts⟩ : Room) w f c).1
        (renew (⟨qu, false, col, fil, ltc, ltd, none, sid, ts, sts⟩ : Room) w f c).2.1
        c now (.ok r)
        = (match dequeue (qu.length + 1)
              (⟨qu, false, col, some f, ltc, ltd, some r.roomId, some r.roomName,
                some now, sts⟩ : Room) w with
           | .error res => .error res
           | .ok (s2, w2, eff) =>
               .ok (s2, { w2 with bindings := w2.bindings ++ [(s2.roomId, c)] },
                    eff ++ [Effect.socketOn s2.roomId])) := rfl
    rw [step, heff]
  | some r0 =>
    obtain ⟨eff, heff⟩ := dequeue_count_entries qu
      ⟨qu, false, col, some f, ltc, ltd, some r.roomId, some r.roomName, some now, sts⟩
      ⟨w.bindings.filter (fun b => b.1 ≠ some r0)⟩ rfl rfl hq
    refine ⟨⟨[], false, col, some f, ltc, ltd, some r.roomId, some r.roomName, some now, sts⟩,
      ⟨(w.bindings.filter (fun b => b.1 ≠ some r0)) ++ [(some r.roomId, c)]⟩,
      eff ++ [Effect.socketOn (some r.roomId)], ?_, rfl, rfl, rfl, rfl⟩
    have step : renewResponse (qu.length + 1)
        (renew (⟨qu, false, col, fil, ltc, ltd, some r0, sid, ts, sts⟩ : Room) w f c).1
        (renew (⟨qu, false, col, fil, ltc, ltd, some r0, sid, ts, sts⟩ : Room) w f c).2.1
        c now (.ok r)
        = (match dequeue (qu.length + 1)
              (⟨qu, false, col, some f, ltc, ltd, some r.roomId, some r.roomName,
                some now, sts⟩ : Room)
              (⟨w.bindings.filter (fun b => b.1 ≠ some r0)⟩ : World) with
           | .error res => .error res
           | .ok (s2, w2, eff) =>
               .ok (s2, { w2 with bindings := w2.bindings ++ [(s2.roomId, c)] },
                    eff ++ [Effect.socketOn s2.roomId])) := rfl
    rw [step, heff]

/-- Witness for C4 at a concrete active instance with an empty queue. -/
theorem claim4_successful_renew_witness :
    activeRoom.subscribing = false ∧
    (∃ s2 w2 eff,
      renewResponse (activeRoom.queue.length + 1)
          (renew activeRoom activeWorld (JVal.str "f1") (CB.user 0)).1
          (renew activeRoom activeWorld (JVal.str "f1") (CB.user 0)).2.1
          (CB.user 0) 42 (.ok ⟨"r1", "s1"⟩)
        = .ok (s2, w2, eff) ∧
      s2.roomId = some (SubResp.mk "r1" "s1").roomId ∧
      s2.subscriptionId = some (SubResp.mk "r1" "s1").roomName ∧
      s2.subscriptionTimestamp = some 42 ∧
      s2.subscribing = false) :=
  ⟨rfl, claim4_successful_renew activeRoom activeWorld (JVal.str "f1") (CB.user 0)
      42 ⟨"r1", "s1"⟩ rfl (by intro e he; exact absurd he (List.not_mem_nil e))⟩

/-- **C5.** On an instance with a non-null `roomId` and `subscribing`
false, `unsubscribe` emits exactly the fire-and-forget off-query (no
response handler is attached to it, so its failure cannot affect the
instance — teardown is already complete locally) followed by the
transport detach of the old room id; it nulls `roomId`, `subscriptionId`
and `subscriptionTimestamp`; afterwards no transport binding under the
old room id remains, and a message delivered on that id reaches no
handler. -/
theorem claim5_unsubscribe_active (s : Room) (w : World) (g : Globals) (r : String)
    (msg : JVal) (hr : s.roomId = some r) (hs : s.subscribing = false) :
    (unsubscribe s w).1.roomId = none ∧
    (unsubscribe s w).1.subscriptionId = none ∧
    (unsubscribe s w).1.subscriptionTimestamp = none ∧
    (unsubscribe s w).2.2
      = [Effect.queryOff s.collection s.subscriptionId, Effect.socketOff r] ∧
    (∀ b ∈ (unsubscribe s w).2.1.bindings, b.1 ≠ some r) ∧
    deliver (unsubscribe s w).1 (unsubscribe s w).2.1 g r msg
      = .ok ((unsubscribe s w).1, []) := by
  obtain ⟨qu, sub, col, fil, ltc, ltd, rid, sid, ts, sts⟩ := s
  simp only at hr hs
  subst hr hs
  refine ⟨rfl, rfl, rfl, rfl, ?_, ?_⟩
  · intro b hb
    have hb' : b ∈ w.bindings.filter (fun b => b.1 ≠ some r) := hb
    rw [List.mem_filter] at hb'
    simpa using hb'.2
  · have hnil : ((w.bindings.filter (fun b => b.1 ≠ some r)).filter
        (fun b => b.1 = some r)) = [] := by
      refine List.filter_eq_nil_iff.mpr ?_
      intro b hb
      rw [List.mem_filter] at hb
      simpa using hb.2
    show ((((w.bindings.filter (fun b => b.1 ≠ some r)).filter
        (fun b => b.1 = some r)).map (·.2)).foldlM _ _) = _
    rw [hnil]
    rfl

/-- Witness for C5 at the concrete active instance. -/
theorem claim5_unsubscribe_active_witness :
    activeRoom.roomId = some "r0" ∧ activeRoom.subscribing = false ∧
    ((unsubscribe activeRoom activeWorld).1.roomId = none ∧
    (unsubscribe activeRoom activeWorld).1.subscriptionId = none ∧
    (unsubscribe activeRoom activeWorld).1.subscriptionTimestamp = none ∧
    (unsubscribe activeRoom activeWorld).2.2
      = [Effect.queryOff activeRoom.collection activeRoom.subscriptionId,
         Effect.socketOff "r0"] ∧
    (∀ b ∈ (unsubscribe activeRoom activeWorld).2.1.bindings, b.1 ≠ some "r0") ∧
    deliver (unsubscribe activeRoom activeWorld).1
        (unsubscribe activeRoom activeWorld).2.1 g0 "r0" JVal.null
      = .ok ((unsubscribe activeRoom activeWorld).1, [])) :=
  ⟨rfl, rfl, claim5_unsubscribe_active activeRoom activeWorld g0 "r0" JVal.null rfl rfl⟩

/-- A proceeding `renew`'s emitted trace is its `unsubscribe` step's
trace followed by the subscribe request. -/
theorem renew_effects (s : Room) (w : World) (f : JVal) (c : CB)
    (hs : s.subscribing = false) :
    (renew s w f c).2.2
      = (unsubscribe s w).2.2 ++ [Effect.queryOn s.collection f c] := by
  obtain ⟨qu, sub, col, fil, ltc, ltd, rid, sid, ts, sts⟩ := s
  simp only at hs
  subst hs
  cases rid <;> rfl

/-- The transport bindings that survive the `unsubscribe` step of a
proceeding `renew`: those not keyed by the old room id (all of them when
there was no old room id). -/
def remainingBindings (s : Room) (w : World) : List (Option String × CB) :=
  match s.roomId with
  | some rOld => w.bindings.filter (fun b => b.1 ≠ some rOld)
  | none => w.bindings

/-- One full successful renew cycle on an empty queue: the new identity
fields are committed and the new handler is bound after the bindings
keyed by the old room id (if any) were removed. -/
theorem renew_cycle (s : Room) (w : World) (f : JVal) (c : CB) (t : Nat)
    (r : SubResp) (hs : s.subscribing = false) (hq : s.queue = []) :
    ∃ eff,
      renewResponse 1 (renew s w f c).1 (renew s w f c).2.1 c t (.ok r)
        = .ok ({ s with filters := some f, roomId := some r.roomId,
                        subscriptionId := some r.roomName,
                        subscriptionTimestamp := some t, subscribing := false },
               ⟨remainingBindings s w ++ [(some r.roomId, c)]⟩,
               eff) := by
  obtain ⟨qu, sub, col, fil, ltc, ltd, rid, sid, ts, sts⟩ := s
  simp only at hs hq
  subst hs hq
  cases rid <;> exact ⟨_, rfl⟩

/-- **C6.** Every `renew` call that proceeds runs its unsubscribe step
before its subscribe request; consequently, over two back-to-back
completed renews, the old transport binding is removed before the new
handler is committed, and exactly one live binding remains, keyed by the
fresh backend-assigned room id of the latest subscribe response. -/
theorem claim6_renew_clears_before_subscribe (s : Room) (w : World)
    (f1 f2 : JVal) (c1 c2 : CB) (t1 t2 : Nat) (r1 r2 : SubResp)
    (hs : s.subscribing = false) (hq : s.queue = [])
    (hb : ∀ b ∈ w.bindings, b.1 = s.roomId ∧ s.roomId ≠ none) :
    (renew s w f1 c1).2.2
      = (unsubscribe s w).2.2 ++ [Effect.queryOn s.collection f1 c1] ∧
    ∃ s1 w1 eff1,
      renewResponse 1 (renew s w f1 c1).1 (renew s w f1 c1).2.1 c1 t1 (.ok r1)
        = .ok (s1, w1, eff1) ∧
      w1.bindings = [(some r1.roomId, c1)] ∧
      s1.roomId = some r1.roomId ∧
      ∃ s2 w2 eff2,
        renewResponse 1 (renew s1 w1 f2 c2).1 (renew s1 w1 f2 c2).2.1
            c2 t2 (.ok r2)
          = .ok (s2, w2, eff2) ∧
        w2.bindings = [(some r2.roomId, c2)] ∧
        s2.roomId = some r2.roomId := by
  refine ⟨renew_effects s w f1 c1 hs, ?_⟩
  obtain ⟨eff1, h1⟩ := renew_cycle s w f1 c1 t1 r1 hs hq
  have hjunk : remainingBindings s w = [] := by
    cases hrid : s.roomId with
    | none =>
      cases hwb : w.bindings with
      | nil => simp [remainingBindings, hrid, hwb]
      | cons b bs =>
        have hmem := hb b (by rw [hwb]; exact List.mem_cons_self b bs)
        rw [hrid] at hmem
        exact absurd rfl hmem.2
    | some r0 =>
      simp only [remainingBindings, hrid]
      refine List.filter_eq_nil_iff.mpr ?_
      intro b hbmem
      have hmem := hb b hbmem
      rw [hrid] at hmem
      simp [hmem.1]
  rw [hjunk, List.nil_append] at h1
  refine ⟨_, _, _, h1, rfl, rfl, ?_⟩
  obtain ⟨eff2, h2⟩ := renew_cycle
      { s with filters := some f1, roomId := some r1.roomId,
               subscriptionId := some r1.roomName,
               subscriptionTimestamp := some t1, subscribing := false }
      ⟨[(some r1.roomId, c1)]⟩ f2 c2 t2 r2 rfl hq
  have hjunk2 : remainingBindings
      { s with filters := some f1, roomId := some r1.roomId,
               subscriptionId := some r1.roomName,
               subscriptionTimestamp := some t1, subscribing := false }
      ⟨[(some r1.roomId, c1)]⟩ = [] := by
    simp [remainingBindings]
  rw [hjunk2, List.nil_append] at h2
  exact ⟨_, _, _, h2, rfl, rfl⟩

/-- Witness for C6 at the concrete active instance. -/
theorem claim6_renew_clears_before_subscribe_witness :
    activeRoom.subscribing = false ∧ activeRoom.queue = [] ∧
    ((renew activeRoom activeWorld (JVal.str "f1") (CB.user 1)).2.2
      = (unsubscribe activeRoom activeWorld).2.2
        ++ [Effect.queryOn activeRoom.collection (JVal.str "f1") (CB.user 1)] ∧
    ∃ s1 w1 eff1,
      renewResponse 1 (renew activeRoom activeWorld (JVal.str "f1") (CB.user 1)).1
          (renew activeRoom activeWorld (JVal.str "f1") (CB.user 1)).2.1
          (CB.user 1) 7 (.ok ⟨"r1", "s1"⟩)
        = .ok (s1, w1, eff1) ∧
      w1.bindings = [(some (SubResp.mk "r1" "s1").roomId, CB.user 1)] ∧
      s1.roomId = some (SubResp.mk "r1" "s1").roomId ∧
      ∃ s2 w2 eff2,
        renewResponse 1 (renew s1 w1 (JVal.str "f2") (CB.user 2)).1
            (renew s1 w1 (JVal.str "f2") (CB.user 2)).2.1
            (CB.user 2) 8 (.ok ⟨"r2", "s2"⟩)
          = .ok (s2, w2, eff2) ∧
        w2.bindings = [(some (SubResp.mk "r2" "s2").roomId, CB.user 2)] ∧
        s2.roomId = some (SubResp.mk "r2" "s2").roomId) :=
  ⟨rfl, rfl,
   claim6_renew_clears_before_subscribe activeRoom activeWorld
     (JVal.str "f1") (JVal.str "f2") (CB.user 1) (CB.user 2) 7 8
     ⟨"r1", "s1"⟩ ⟨"r2", "s2"⟩ rfl rfl
     (by intro b hbm
         have hb' : b ∈ [(some "r0", CB.user 9)] := hbm
         rw [List.mem_singleton] at hb'
         subst hb'
         exact ⟨rfl, by simp [activeRoom, mkRoom]⟩)⟩

/-- **C7.** An inbound notification without a (truthy) error whose
`result.action` is `'on'` (resp. `'off'`), arriving when the matching
gate flag `listeningToConnections` (resp. `listeningToDisconnections`)
is false and the matching global listener list `subscribed` (resp.
`unsubscribed`) is empty, is dropped entirely: the handler issues no
count query, queues nothing, and invokes no callback and no listener. -/
theorem claim7_gated_lifecycle_skipped (s : Room) (g : Globals) (c : CB)
    (msg result : JVal)
    (herr : (getField msg "error").any truthy = false)
    (hres : getField msg "result" = some result)
    (h : (getField result "action" = some (JVal.str "on") ∧
            s.listeningToConnections = false ∧ g.subscribed = []) ∨
         (getField result "action" = some (JVal.str "off") ∧
            s.listeningToDisconnections = false ∧ g.unsubscribed = [])) :
    notifHandler s g c msg = .ok (s, []) := by
  rcases h with ⟨hact, hflag, hlist⟩ | ⟨hact, hflag, hlist⟩ <;>
    simp [notifHandler, herr, hres, hact, hflag, hlist, isStr, eventListeners, count]

/-- Witness for C7: a fresh room (both gates false), no global
listeners, an `on` lifecycle notification. -/
theorem claim7_gated_lifecycle_skipped_witness :
    ((getField (JVal.obj [("result", JVal.obj [("action", JVal.str "on")])])
        "error").any truthy = false) ∧
    (getField (JVal.obj [("result", JVal.obj [("action", JVal.str "on")])])
        "result" = some (JVal.obj [("action", JVal.str "on")])) ∧
    notifHandler (mkRoom "col" none) g0 (CB.user 1)
        (JVal.obj [("result", JVal.obj [("action", JVal.str "on")])])
      = .ok (mkRoom "col" none, []) :=
  ⟨rfl, rfl,
   claim7_gated_lifecycle_skipped (mkRoom "col" none) g0 (CB.user 1)
     (JVal.obj [("result", JVal.obj [("action", JVal.str "on")])])
     (JVal.obj [("action", JVal.str "on")]) rfl rfl
     (Or.inl ⟨rfl, rfl, rfl⟩)⟩

/-- **C8.** When a lifecycle dispatch's count query fails, the
subscription callback receives exactly the count error — and only when
the gate flag is true — and no global listener is invoked (the effect
list carries no `listenerCall` in either case). -/
theorem claim8_count_failure_gated (s : Room) (g : Globals) (payload : JVal)
    (listening : Bool) (ev : String) (orig : Nat) (e : JVal) :
    countResponse s g (CB.lifecycle payload listening ev (CB.user orig)) (.error e)
      = if listening then [Effect.cbCall orig (some e) none] else [] := by
  cases listening <;> rfl

/-- The C9 scenario, executed end to end. A room is constructed with
`listeningToConnections = true`; `renew({field:'x'}, cb1)` is called
(cb1 is `CB.user 1`); the backend subscribe response assigns
`roomId = 'r1'`, `roomName = 's1'`; an inbound `{result:{action:'on'}}`
message is delivered on channel `r1`; the count query this triggers is
answered with 3. The driver returns the effects of the count-response
step (`none` if any step fails or does not issue exactly one count
query). The count answer `3` is modelled from the spec: the Query
Gateway (not under src/) delivers the backend count value of the
`{count:3}` response to the count callback (§8 scenario). -/
def scenario9 : Option (List Effect) :=
  let s0 := mkRoom "col" (some ⟨some true, none, none⟩)
  let step1 := renew s0 w0 (JVal.obj [("field", JVal.str "x")]) (CB.user 1)
  match renewResponse 1 step1.1 step1.2.1 (CB.user 1) 100 (.ok ⟨"r1", "s1"⟩) with
  | .error _ => none
  | .ok (s2, w2, _) =>
    match deliver s2 w2 g0 "r1"
        (JVal.obj [("result", JVal.obj [("action", JVal.str "on")])]) with
    | .error _ => none
    | .ok (s3, eff3) =>
      match eff3.filterMap (fun e => match e with
          | .queryCount _ h => some h
          | _ => none) with
      | [h] => some (countResponse s3 g0 h (.ok (JVal.num 3)))
      | _ => none

/-- **C9.** In the scenario above, `cb1` is invoked exactly once, with
`(null, {action:'on', count:3})`. -/
theorem claim9_scenario :
    scenario9 = some [Effect.cbCall 1 none
      (some (JVal.obj [("action", JVal.str "on"), ("count", JVal.num 3)]))] := rfl

end KuzzleRoom
